import Mathlib

/-!
Shallow embedding of `src/stdbuf.rs` (uutils stdbuf, pre-1.0 Rust).

The buffer-mode grammar (`parse_size`, `check_option`), the option
resolver (`parse_options`) and the boundary scan of `main` are translated
directly from the source.  Machine integers are `Nat` with an explicit
`% 2 ^ 64` where the source performs `u64` arithmetic that can overflow
(pre-1.0 Rust integer arithmetic wraps silently).  The `getopts` crate is
an external dependency whose code is not part of the repository; its
behaviour is modelled from the spec (see `getoptsFn`).
-/

inductive BufferType
  | Default
  | Unbuffered
  | Line
  | Size (bytes : Nat)
deriving DecidableEq

structure ProgramOptions where
  stdin : BufferType
  stdout : BufferType
  stderr : BufferType
deriving DecidableEq

inductive ErrMsg
  | Retry
  | Fatal
deriving DecidableEq

inductive OkMsg
  | Buffering
  | Help
  | Version
deriving DecidableEq

/-- Trailing part of the token: `size.trim_left_chars(|c| c.is_digit(10))`,
the token with its leading decimal-digit run removed. -/
def sizeExt (size : String) : String :=
  String.mk (size.data.dropWhile fun c => c.isDigit)

/-- Leading part of the token: `size.trim_right_chars(|c| c.is_alphabetic())`,
the token with its trailing alphabetic run removed.  `Char.isAlpha` (ASCII)
stands in for `char::is_alphabetic`; they agree on every suffix the unit
table can accept, so accepted tokens and values coincide. -/
def sizeNum (size : String) : String :=
  String.mk ((size.data.reverse.dropWhile fun c => c.isAlpha).reverse)

/-- Value of a decimal-digit string, as `from_str::<u64>` computes it. -/
def digitsVal (l : List Char) : Nat :=
  l.foldl (fun a c => a * 10 + (c.toNat - 48)) 0

/-- Behaviour of Rust `from_str::<u64>`: a non-empty all-digit string whose
value fits in 64 bits parses; anything else is `None`. -/
def rustFromStrU64 (s : String) : Option Nat :=
  if s.data = [] then none
  else if s.data.all (fun c => c.isDigit) = false then none
  else if digitsVal s.data < 2 ^ 64 then some (digitsVal s.data) else none

/-- The `(power, base)` table of `parse_size` (src/stdbuf.rs lines 74-93),
exactly as in the source: bare unit letters pair with base 1000 and the
`B`-suffixed ones with base 1024. -/
def sizeUnit (ext : String) : Option (Nat × Nat) :=
  match ext with
  | "" => some (0, 0)
  | "KB" => some (1, 1024)
  | "K" => some (1, 1000)
  | "MB" => some (2, 1024)
  | "M" => some (2, 1000)
  | "GB" => some (3, 1024)
  | "G" => some (3, 1000)
  | "TB" => some (4, 1024)
  | "T" => some (4, 1000)
  | "PB" => some (5, 1024)
  | "P" => some (5, 1000)
  | "EB" => some (6, 1024)
  | "E" => some (6, 1000)
  | "ZB" => some (7, 1024)
  | "Z" => some (7, 1000)
  | "YB" => some (8, 1024)
  | "Y" => some (8, 1000)
  | _ => none

/-- `parse_size` (src/stdbuf.rs lines 62-95).  The final multiplication and
`Int::pow` are wrapping `u64` operations in pre-1.0 Rust, hence the
`% 2 ^ 64`. -/
def parse_size (size : String) : Option Nat :=
  let ext := sizeExt size
  let num := sizeNum size
  let recovered := num ++ ext
  if recovered ≠ size then none
  else
    match rustFromStrU64 num with
    | none => none
    | some buf_size =>
      match sizeUnit ext with
      | none => none
      | some (power, base) => some (buf_size * base ^ power % 2 ^ 64)

/-- Matches record produced by the option-grammar parse: the collected
values of the three value options, the occurrence counts of the two flags,
and the free (positional) arguments. -/
structure Matches where
  inputVals : List String := []
  outputVals : List String := []
  errorVals : List String := []
  helpCount : Nat := 0
  versionCount : Nat := 0
  free : List String := []
deriving DecidableEq

/-- `matches.opt_str(name)`: first recorded value of a value option. -/
def Matches.opt_str (m : Matches) (name : String) : Option String :=
  match name with
  | "input" => m.inputVals.head?
  | "output" => m.outputVals.head?
  | "error" => m.errorVals.head?
  | _ => none

/-- `matches.opt_present(name)` for the two flags. -/
def Matches.opt_present (m : Matches) (name : String) : Bool :=
  match name with
  | "help" => decide (0 < m.helpCount)
  | "version" => decide (0 < m.versionCount)
  | _ => false

/-- `check_option` (src/stdbuf.rs lines 97-122).  Returns the parsed mode
(`none` on failure), the updated `modified` flag, and the diagnostic lines
printed.  The source sets `*modified = true` before inspecting the value,
so every present option sets the flag, even on a failing parse. -/
def check_option (ms : Matches) (name : String) (modified : Bool) :
    Option BufferType × Bool × List String :=
  match ms.opt_str name with
  | some value =>
    (match value with
     | "0" => (some BufferType.Unbuffered, true, [])
     | "L" =>
       if name = "input" then
         (none, true, ["stdbuf: line buffering stdin is meaningless"])
       else
         (some BufferType.Line, true, [])
     | x =>
       match parse_size x with
       | some m => (some (BufferType.Size m), true, [])
       | none => (none, true, ["Invalid mode " ++ x]))
  | none => (some BufferType.Default, modified, [])

inductive GetoptsFail
  | argumentMissing (nm : String)
  | unrecognizedOption (nm : String)
  | unexpectedArgument (nm : String)
  | optionDuplicated (nm : String)
deriving DecidableEq

inductive GetoptsResult
  | ok (m : Matches)
  | err (e : GetoptsFail)
deriving DecidableEq

inductive OptId
  | input
  | output
  | error
  | help
  | version
deriving DecidableEq

/-- Whether the option takes a value: `-i` (`--input`), `-o` (`--output`)
and `-e` (`--error`) do (optopt); `--help` and `--version` do not (optflag). -/
def hasArg : OptId → Bool
  | OptId.input => true
  | OptId.output => true
  | OptId.error => true
  | OptId.help => false
  | OptId.version => false

inductive OptName
  | short (c : Char)
  | long (s : String)
deriving DecidableEq

/-- Option table of `main` (src/stdbuf.rs lines 153-159): short and long
names of the five options; `--help` and `--version` are long-only. -/
def findOpt : OptName → Option OptId
  | OptName.short 'i' => some OptId.input
  | OptName.short 'o' => some OptId.output
  | OptName.short 'e' => some OptId.error
  | OptName.long "input" => some OptId.input
  | OptName.long "output" => some OptId.output
  | OptName.long "error" => some OptId.error
  | OptName.long "help" => some OptId.help
  | OptName.long "version" => some OptId.version
  | _ => none

def optNameStr : OptName → String
  | OptName.short c => String.mk [c]
  | OptName.long s => s

/-- Whether a token is treated as an option by the grammar: length above
one and a leading dash. -/
def isArg (s : String) : Bool :=
  match s.data with
  | '-' :: _ :: _ => true
  | _ => false

/-- Split a character list at occurrences of a separator character,
structurally (used for the inline value of a long option, as in
the grammar's handling of a token of the form long-name=value). -/
def splitOnChar (sep : Char) : List Char → List (List Char)
  | [] => [[]]
  | c :: rest =>
    match splitOnChar sep rest with
    | [] => [[c]]
    | h :: t => if c = sep then [] :: h :: t else (c :: h) :: t

def Matches.pushVal (m : Matches) (id : OptId) (v : String) : Matches :=
  match id with
  | OptId.input => { m with inputVals := m.inputVals ++ [v] }
  | OptId.output => { m with outputVals := m.outputVals ++ [v] }
  | OptId.error => { m with errorVals := m.errorVals ++ [v] }
  | _ => m

def Matches.incFlag (m : Matches) (id : OptId) : Matches :=
  match id with
  | OptId.help => { m with helpCount := m.helpCount + 1 }
  | OptId.version => { m with versionCount := m.versionCount + 1 }
  | _ => m

/-- Modelled from the spec: how one option token of the long/short grammar
is read.  A token starting with two dashes is a long option, optionally
carrying an inline value after the first equals sign; a token starting
with one dash is a short option whose remaining characters, when present,
are its inline value (every short option of this grammar takes a value,
so combined short flags cannot occur).  An unknown short name fails. -/
def parseOptToken (cur : String) : GetoptsFail ⊕ (OptName × Option String) :=
  match cur.data with
  | '-' :: '-' :: tail =>
    (match splitOnChar '=' tail with
     | [] => Sum.inr (OptName.long (String.mk tail), none)
     | [w] => Sum.inr (OptName.long (String.mk w), none)
     | w :: v :: _ => Sum.inr (OptName.long (String.mk w), some (String.mk v)))
  | '-' :: c :: cs =>
    (match findOpt (OptName.short c) with
     | none => Sum.inl (GetoptsFail.unrecognizedOption (String.mk [c]))
     | some id =>
       if hasArg id ∧ cs ≠ [] then Sum.inr (OptName.short c, some (String.mk cs))
       else Sum.inr (OptName.short c, none))
  | _ => Sum.inl (GetoptsFail.unrecognizedOption cur)

/-- Modelled from the spec: the argument loop of the option-grammar parse
(the `getopts` crate, not part of this repository).  Non-option tokens
are collected as free arguments and parsing continues (floating frees);
a bare double dash sends every remaining token to the free list; an
option token records its flag or value, taking the following token as
the value when no inline value is present; a value option at the end of
the arguments with no value, and an unknown option, fail. -/
def getoptsLoop : List String → Matches → GetoptsResult
  | [], m => GetoptsResult.ok m
  | cur :: rest, m =>
    if isArg cur = false then
      getoptsLoop rest { m with free := m.free ++ [cur] }
    else if cur = "--" then
      GetoptsResult.ok { m with free := m.free ++ rest }
    else
      match parseOptToken cur with
      | Sum.inl e => GetoptsResult.err e
      | Sum.inr (nm, iArg) =>
        match findOpt nm with
        | none => GetoptsResult.err (GetoptsFail.unrecognizedOption (optNameStr nm))
        | some id =>
          if hasArg id then
            match iArg with
            | some v => getoptsLoop rest (m.pushVal id v)
            | none =>
              match rest with
              | [] => GetoptsResult.err (GetoptsFail.argumentMissing (optNameStr nm))
              | v :: rest2 => getoptsLoop rest2 (m.pushVal id v)
          else
            match iArg with
            | some _ => GetoptsResult.err (GetoptsFail.unexpectedArgument (optNameStr nm))
            | none => getoptsLoop rest (m.incFlag id)

/-- Every option of this grammar may occur at most once. -/
def Matches.anyDuplicated (m : Matches) : Bool :=
  decide (1 < m.inputVals.length) || decide (1 < m.outputVals.length) ||
    decide (1 < m.errorVals.length) || decide (1 < m.helpCount) ||
    decide (1 < m.versionCount)

/-- Modelled from the spec: `getopts(args, optgrps)` for the option table
of `main`; a duplicated option is also a parse failure. -/
def getoptsFn (args : List String) : GetoptsResult :=
  match getoptsLoop args {} with
  | GetoptsResult.err e => GetoptsResult.err e
  | GetoptsResult.ok m =>
    if m.anyDuplicated then GetoptsResult.err (GetoptsFail.optionDuplicated "") else GetoptsResult.ok m

inductive ParseResult
  | ok (m : OkMsg)
  | err (e : ErrMsg)
deriving DecidableEq

/-- `parse_options` (src/stdbuf.rs lines 124-148).  Returns the outcome,
the `ProgramOptions` as left by the call (the source mutates them through
`&mut`), and the diagnostic lines printed during the call.  Field
assignments happen in source order, so a failure at a later option keeps
the assignments already made by earlier ones. -/
def parse_options (args : List String) (options : ProgramOptions) :
    ParseResult × ProgramOptions × List String :=
  match getoptsFn args with
  | GetoptsResult.err _ => (ParseResult.err ErrMsg.Retry, options, [])
  | GetoptsResult.ok ms =>
    if ms.opt_present "help" then (ParseResult.ok OkMsg.Help, options, [])
    else if ms.opt_present "version" then (ParseResult.ok OkMsg.Version, options, [])
    else
      match check_option ms "input" false with
      | (none, _, out1) => (ParseResult.err ErrMsg.Fatal, options, out1)
      | (some bin, mod1, out1) =>
        match check_option ms "output" mod1 with
        | (none, _, out2) =>
          (ParseResult.err ErrMsg.Fatal, { options with stdin := bin }, out1 ++ out2)
        | (some bout, mod2, out2) =>
          match check_option ms "error" mod2 with
          | (none, _, out3) =>
            (ParseResult.err ErrMsg.Fatal, { options with stdin := bin, stdout := bout },
              out1 ++ out2 ++ out3)
          | (some berr, mod3, out3) =>
            if ms.free.length ≠ 1 then
              (ParseResult.err ErrMsg.Retry,
                { options with stdin := bin, stdout := bout, stderr := berr },
                out1 ++ out2 ++ out3)
            else if mod3 = false then
              (ParseResult.err ErrMsg.Fatal,
                { options with stdin := bin, stdout := bout, stderr := berr },
                out1 ++ out2 ++ out3 ++ ["stdbuf: you must specify a buffering mode option"])
            else
              (ParseResult.ok OkMsg.Buffering,
                { options with stdin := bin, stdout := bout, stderr := berr },
                out1 ++ out2 ++ out3)

/-- Observable outcome of `main` (src/stdbuf.rs lines 151-196): launch of
the wrapped command with the resolved options, help or version output, or
the invalid-options failure. -/
inductive MainOutcome
  | launch (opts : ProgramOptions) (cmd : String) (cmdArgs : List String)
  | helpShown
  | versionShown
  | invalidOptions
deriving DecidableEq

/-- Loop of `main` (src/stdbuf.rs lines 162-185): `i` runs from 1 to
`args.len()` inclusive and each iteration resolves `args.slice(1, i)`;
`rem` counts the iterations still to run, so the loop exhausting without
a resolution (`command_idx == -1`) is the `rem = 0` case. -/
def mainLoopAux (args : List String) : Nat → Nat → ProgramOptions → MainOutcome
  | 0, _, _ => MainOutcome.invalidOptions
  | rem + 1, i, options =>
    match parse_options ((args.take i).drop 1) options with
    | (ParseResult.ok OkMsg.Buffering, options2, _) =>
      MainOutcome.launch options2 (args.getD (i - 1) "") (args.drop i)
    | (ParseResult.ok OkMsg.Help, _, _) => MainOutcome.helpShown
    | (ParseResult.ok OkMsg.Version, _, _) => MainOutcome.versionShown
    | (ParseResult.err ErrMsg.Fatal, _, _) => MainOutcome.invalidOptions
    | (ParseResult.err ErrMsg.Retry, options2, _) => mainLoopAux args rem (i + 1) options2

def initialOptions : ProgramOptions :=
  { stdin := BufferType.Default, stdout := BufferType.Default, stderr := BufferType.Default }

/-- `main` on the full argument vector (`args[0]` is the program name). -/
def stdbuf_main (args : List String) : MainOutcome :=
  mainLoopAux args args.length 1 initialOptions

/-- Exit status attached to each outcome: 0 for help and version, 125 for
the invalid-options failure, and the child's own status (out of scope,
hence `none`) after a launch. -/
def exitCode : MainOutcome → Option Nat
  | MainOutcome.launch _ _ _ => none
  | MainOutcome.helpShown => some 0
  | MainOutcome.versionShown => some 0
  | MainOutcome.invalidOptions => some 125

lemma digit_not_alpha {c : Char} (h : c.isDigit = true) : c.isAlpha = false := by
  simp only [Char.isDigit, ge_iff_le, Bool.and_eq_true, decide_eq_true_eq,
    UInt32.le_def, BitVec.le_def] at h
  obtain ⟨h1, h2⟩ := h
  rw [show ((48 : UInt32)).toBitVec.toNat = 48 from rfl] at h1
  rw [show ((57 : UInt32)).toBitVec.toNat = 57 from rfl] at h2
  cases hu : c.isAlpha with
  | false => rfl
  | true =>
    exfalso
    simp only [Char.isAlpha, Char.isUpper, Char.isLower, ge_iff_le, Bool.or_eq_true,
      Bool.and_eq_true, decide_eq_true_eq, UInt32.le_def, BitVec.le_def] at hu
    rcases hu with ⟨ha, _⟩ | ⟨ha, _⟩
    · rw [show ((65 : UInt32)).toBitVec.toNat = 65 from rfl] at ha; omega
    · rw [show ((97 : UInt32)).toBitVec.toNat = 97 from rfl] at ha; omega

lemma dropWhile_nil_of_all {p : Char → Bool} :
    ∀ l : List Char, (∀ c ∈ l, p c = true) → l.dropWhile p = []
  | [], _ => rfl
  | c :: l, h => by
    have hc := h c (List.mem_cons_self c l)
    simp only [List.dropWhile_cons, hc, if_true]
    exact dropWhile_nil_of_all l fun d hd => h d (List.mem_cons_of_mem c hd)

lemma num_eq_takeWhile_of_recovered {s : String}
    (h : sizeNum s ++ sizeExt s = s) :
    String.mk (s.data.takeWhile fun c => c.isDigit) = sizeNum s := by
  apply String.ext
  have hdata : (sizeNum s).data ++ (sizeExt s).data = s.data := by
    rw [← String.data_append, h]
  have htds : (s.data.takeWhile fun c => c.isDigit) ++
      (s.data.dropWhile fun c => c.isDigit) = s.data :=
    List.takeWhile_append_dropWhile _ _
  have hext : (sizeExt s).data = s.data.dropWhile fun c => c.isDigit := rfl
  rw [hext] at hdata
  exact List.append_cancel_right (htds.trans hdata.symm)

lemma check_option_fst_flag (m : Matches) (name : String) (b b' : Bool) :
    (check_option m name b).1 = (check_option m name b').1 := by
  cases h : m.opt_str name <;> simp [check_option, h]

lemma check_option_msgs_flag (m : Matches) (name : String) (b b' : Bool) :
    (check_option m name b).2.2 = (check_option m name b').2.2 := by
  cases h : m.opt_str name <;> simp [check_option, h]

lemma check_option_cases (m : Matches) (name : String) (b : Bool) :
    (check_option m name b).2.2 = [] ∨ (check_option m name b).1 = none := by
  cases h : m.opt_str name with
  | none => left; simp [check_option, h]
  | some value =>
    simp only [check_option, h]
    split
    · left; rfl
    · split
      · right; rfl
      · left; rfl
    · split
      · left; rfl
      · right; rfl

lemma check_option_some_msgs {m : Matches} {name : String} {b : Bool} {x : BufferType}
    (h : (check_option m name b).1 = some x) : (check_option m name b).2.2 = [] := by
  rcases check_option_cases m name b with hc | hc
  · exact hc
  · rw [hc] at h; exact absurd h (by simp)

lemma parse_options_indep (a : List String) (s t : ProgramOptions) :
    (parse_options a s).1 = (parse_options a t).1 ∧
    (parse_options a s).2.2 = (parse_options a t).2.2 ∧
    ((parse_options a s).1 = ParseResult.ok OkMsg.Buffering →
      (parse_options a s).2.1 = (parse_options a t).2.1) := by
  obtain ⟨s1, s2, s3⟩ := s
  obtain ⟨t1, t2, t3⟩ := t
  unfold parse_options
  cases hg : getoptsFn a with
  | err e => simp
  | ok m =>
    by_cases hh : m.opt_present "help" = true
    · simp [hh]
    · simp only [Bool.not_eq_true] at hh
      by_cases hv : m.opt_present "version" = true
      · simp [hh, hv]
      · simp only [Bool.not_eq_true] at hv
        rcases hin : check_option m "input" false with ⟨oin, mod1, out1⟩
        cases oin with
        | none => simp [hh, hv, hin]
        | some bin =>
          rcases hout : check_option m "output" mod1 with ⟨oout, mod2, out2⟩
          cases oout with
          | none => simp [hh, hv, hin, hout]
          | some bout =>
            rcases herr : check_option m "error" mod2 with ⟨oerr, mod3, out3⟩
            cases oerr with
            | none => simp [hh, hv, hin, hout, herr]
            | some berr =>
              by_cases hf : m.free.length = 1
              · by_cases hm : mod3 = false
                · simp [hh, hv, hin, hout, herr, hf, hm]
                · simp [hh, hv, hin, hout, herr, hf, hm]
              · simp [hh, hv, hin, hout, herr, hf]

lemma parse_options_getopts_err {a : List String} {e : GetoptsFail}
    (hg : getoptsFn a = GetoptsResult.err e) (s : ProgramOptions) :
    parse_options a s = (ParseResult.err ErrMsg.Retry, s, []) := by
  unfold parse_options
  rw [hg]

lemma parse_options_retry_msgs {a : List String} {s : ProgramOptions}
    (h : (parse_options a s).1 = ParseResult.err ErrMsg.Retry) :
    (parse_options a s).2.2 = [] := by
  unfold parse_options at h ⊢
  cases hg : getoptsFn a with
  | err e => simp
  | ok m =>
    rw [hg] at h
    by_cases hh : m.opt_present "help" = true
    · simp [hh] at h
    · simp only [Bool.not_eq_true] at hh
      by_cases hv : m.opt_present "version" = true
      · simp [hh, hv] at h
      · simp only [Bool.not_eq_true] at hv
        rcases hin : check_option m "input" false with ⟨oin, mod1, out1⟩
        cases oin with
        | none => simp [hh, hv, hin] at h
        | some bin =>
          have e1 : out1 = [] := by
            have := @check_option_some_msgs m "input" false bin (by rw [hin])
            rw [hin] at this
            exact this
          rcases hout : check_option m "output" mod1 with ⟨oout, mod2, out2⟩
          cases oout with
          | none => simp [hh, hv, hin, hout] at h
          | some bout =>
            have e2 : out2 = [] := by
              have := @check_option_some_msgs m "output" mod1 bout (by rw [hout])
              rw [hout] at this
              exact this
            rcases herr : check_option m "error" mod2 with ⟨oerr, mod3, out3⟩
            cases oerr with
            | none => simp [hh, hv, hin, hout, herr] at h
            | some berr =>
              have e3 : out3 = [] := by
                have := @check_option_some_msgs m "error" mod2 berr (by rw [herr])
                rw [herr] at this
                exact this
              by_cases hf : m.free.length = 1
              · by_cases hm : mod3 = false
                · simp [hh, hv, hin, hout, herr, hf, hm] at h
                · simp [hh, hv, hin, hout, herr, hf, hm] at h
              · simp [hh, hv, hin, hout, herr, hf, e1, e2, e3]

lemma parse_options_fatal_of_check {a : List String} {m : Matches}
    (hg : getoptsFn a = GetoptsResult.ok m)
    (hh : m.opt_present "help" = false) (hv : m.opt_present "version" = false)
    (hc : (check_option m "input" false).1 = none ∨
      (check_option m "output" false).1 = none ∨
      (check_option m "error" false).1 = none)
    (s : ProgramOptions) :
    (parse_options a s).1 = ParseResult.err ErrMsg.Fatal := by
  unfold parse_options
  rw [hg]
  rcases hin : check_option m "input" false with ⟨oin, mod1, out1⟩
  cases oin with
  | none => simp [hh, hv, hin]
  | some bin =>
    rcases hout : check_option m "output" mod1 with ⟨oout, mod2, out2⟩
    cases oout with
    | none => simp [hh, hv, hin, hout]
    | some bout =>
      rcases herr : check_option m "error" mod2 with ⟨oerr, mod3, out3⟩
      cases oerr with
      | none => simp [hh, hv, hin, hout, herr]
      | some berr =>
        exfalso
        rcases hc with hc | hc | hc
        · rw [hin] at hc; exact absurd hc (by simp)
        · rw [check_option_fst_flag m "output" false mod1, hout] at hc
          exact absurd hc (by simp)
        · rw [check_option_fst_flag m "error" false mod2, herr] at hc
          exact absurd hc (by simp)

lemma mainLoopAux_retry {args : List String} {i : Nat} {s : ProgramOptions} (rem : Nat)
    (h : (parse_options ((args.take i).drop 1) s).1 = ParseResult.err ErrMsg.Retry) :
    mainLoopAux args (rem + 1) i s =
      mainLoopAux args rem (i + 1) ((parse_options ((args.take i).drop 1) s).2.1) := by
  rcases hp : parse_options ((args.take i).drop 1) s with ⟨r, o, msgs⟩
  rw [hp] at h
  simp only at h
  subst h
  rw [List.drop_one] at hp
  simp [mainLoopAux, hp]

lemma mainLoopAux_fatal {args : List String} {i : Nat} {s : ProgramOptions} (rem : Nat)
    (h : (parse_options ((args.take i).drop 1) s).1 = ParseResult.err ErrMsg.Fatal) :
    mainLoopAux args (rem + 1) i s = MainOutcome.invalidOptions := by
  rcases hp : parse_options ((args.take i).drop 1) s with ⟨r, o, msgs⟩
  rw [hp] at h
  simp only at h
  subst h
  rw [List.drop_one] at hp
  simp [mainLoopAux, hp]

lemma mainLoopAux_buffering {args : List String} {i : Nat} {s : ProgramOptions} (rem : Nat)
    (h : (parse_options ((args.take i).drop 1) s).1 = ParseResult.ok OkMsg.Buffering) :
    mainLoopAux args (rem + 1) i s =
      MainOutcome.launch ((parse_options ((args.take i).drop 1) s).2.1)
        (args.getD (i - 1) "") (args.drop i) := by
  rcases hp : parse_options ((args.take i).drop 1) s with ⟨r, o, msgs⟩
  rw [hp] at h
  simp only at h
  subst h
  rw [List.drop_one] at hp
  simp [mainLoopAux, hp]

lemma mainLoopAux_help {args : List String} {i : Nat} {s : ProgramOptions} (rem : Nat)
    (h : (parse_options ((args.take i).drop 1) s).1 = ParseResult.ok OkMsg.Help) :
    mainLoopAux args (rem + 1) i s = MainOutcome.helpShown := by
  rcases hp : parse_options ((args.take i).drop 1) s with ⟨r, o, msgs⟩
  rw [hp] at h
  simp only at h
  subst h
  rw [List.drop_one] at hp
  simp [mainLoopAux, hp]

lemma mainLoopAux_version {args : List String} {i : Nat} {s : ProgramOptions} (rem : Nat)
    (h : (parse_options ((args.take i).drop 1) s).1 = ParseResult.ok OkMsg.Version) :
    mainLoopAux args (rem + 1) i s = MainOutcome.versionShown := by
  rcases hp : parse_options ((args.take i).drop 1) s with ⟨r, o, msgs⟩
  rw [hp] at h
  simp only at h
  subst h
  rw [List.drop_one] at hp
  simp [mainLoopAux, hp]

lemma mainLoopAux_state_indep (args : List String) :
    ∀ (rem i : Nat) (s t : ProgramOptions),
      mainLoopAux args rem i s = mainLoopAux args rem i t := by
  intro rem
  induction rem with
  | zero => intro i s t; rfl
  | succ n ih =>
    intro i s t
    obtain ⟨h1, h2, h3⟩ := parse_options_indep ((args.take i).drop 1) s t
    rcases hp : parse_options ((args.take i).drop 1) s with ⟨r, o, ms1⟩
    rcases hq : parse_options ((args.take i).drop 1) t with ⟨r', o', ms2⟩
    rw [hp, hq] at h1
    simp only at h1
    subst h1
    cases r with
    | ok k =>
      cases k with
      | Buffering =>
        have ho : o = o' := by
          have := h3 (by rw [hp])
          rw [hp, hq] at this
          exact this
        subst ho
        rw [List.drop_one] at hp hq
        simp [mainLoopAux, hp, hq]
      | Help =>
        rw [List.drop_one] at hp hq
        simp [mainLoopAux, hp, hq]
      | Version =>
        rw [List.drop_one] at hp hq
        simp [mainLoopAux, hp, hq]
    | err e =>
      cases e with
      | Fatal =>
        rw [List.drop_one] at hp hq
        simp [mainLoopAux, hp, hq]
      | Retry =>
        simp only [mainLoopAux]
        rw [hp, hq]
        exact ih (i + 1) o o'

lemma mainLoop_reach (args : List String) (iw : Nat) (hw : iw ≤ args.length)
    (hres : (parse_options ((args.take iw).drop 1) initialOptions).1 =
      ParseResult.ok OkMsg.Buffering)
    (hprev : ∀ j, j < iw → 1 ≤ j →
      (parse_options ((args.take j).drop 1) initialOptions).1 =
        ParseResult.err ErrMsg.Retry) :
    ∀ (n k : Nat) (s : ProgramOptions), 1 ≤ k → k ≤ iw → iw - k = n →
      mainLoopAux args (args.length + 1 - k) k s =
        MainOutcome.launch ((parse_options ((args.take iw).drop 1) initialOptions).2.1)
          (args.getD (iw - 1) "") (args.drop iw) := by
  intro n
  induction n with
  | zero =>
    intro k s hk1 hki hn
    have hkw : k = iw := by omega
    subst hkw
    have hrem : args.length + 1 - k = (args.length - k) + 1 := by omega
    rw [hrem]
    have hs : (parse_options ((args.take k).drop 1) s).1 = ParseResult.ok OkMsg.Buffering := by
      rw [(parse_options_indep ((args.take k).drop 1) s initialOptions).1]
      exact hres
    rw [mainLoopAux_buffering (args.length - k) hs]
    have ho : (parse_options ((args.take k).drop 1) s).2.1 =
        (parse_options ((args.take k).drop 1) initialOptions).2.1 :=
      (parse_options_indep ((args.take k).drop 1) s initialOptions).2.2 hs
    rw [ho]
  | succ n ih =>
    intro k s hk1 hki hn
    have hklt : k < iw := by omega
    have hrem : args.length + 1 - k = (args.length - k) + 1 := by omega
    rw [hrem]
    have hs : (parse_options ((args.take k).drop 1) s).1 = ParseResult.err ErrMsg.Retry := by
      rw [(parse_options_indep ((args.take k).drop 1) s initialOptions).1]
      exact hprev k hklt hk1
    rw [mainLoopAux_retry (args.length - k) hs]
    have hstep : args.length - k = args.length + 1 - (k + 1) := by omega
    rw [hstep]
    exact ih (k + 1) _ (by omega) (by omega) (by omega)

/-- Claim C1.  Contrary to the claim (and to the program's own help text,
which advertises KB 1000, K 1024, MB 1000*1000, M 1024*1024), the source's
unit table pairs the bare letters with base 1000 and the B-suffixed ones
with base 1024, so "64MB" parses to 64*1024*1024 = 67108864, not
64*1000*1000. -/
theorem C1_parse_size_inverted_bases :
    parse_size "64MB" = some (64 * 1024 * 1024) ∧
    parse_size "64K" = some (64 * 1000) ∧
    (64 * 1024 * 1024 : Nat) ≠ 64 * 1000 * 1000 := by decide

/-- Claim C3.  A token whose numeric literal fits in 64 bits but whose
scaled value does not is not rejected: the wrapping u64 arithmetic makes
"2Y" parse to (2 * 1000 ^ 8) mod 2 ^ 64, silently wrapped.  (The claim's
own example "99999999999999999999K" is rejected, but only because the
numeric literal itself exceeds the u64 range.) -/
theorem C3_parse_size_overflow_wraps :
    parse_size "2Y" = some (2 * 1000 ^ 8 % 2 ^ 64) ∧
    2 ^ 64 < 2 * 1000 ^ 8 ∧
    parse_size "2Y" ≠ none ∧
    parse_size "99999999999999999999K" = none := by decide

/-- Claim C8.  Every token accepted by parse_size reconstructs exactly as
its leading digit run followed by its trailing alphabetic suffix, and a
token failing the reconstruction check is rejected. -/
theorem C8_roundtrip (s : String) (v : Nat) :
    (parse_size s = some v →
      String.mk (s.data.takeWhile fun c => c.isDigit) ++ sizeExt s = s) ∧
    (sizeNum s ++ sizeExt s ≠ s → parse_size s = none) := by
  constructor
  · intro h
    by_cases hg : sizeNum s ++ sizeExt s = s
    · rw [num_eq_takeWhile_of_recovered hg]
      exact hg
    · simp only [parse_size] at h
      rw [if_pos hg] at h
      exact absurd h (by simp)
  · intro hg
    simp only [parse_size]
    rw [if_pos hg]

/-- Claim C8 witness: the accepted token "64MB" reconstructs as "64" ++
"MB", and the malformed token "12x34y" is rejected. -/
theorem C8_roundtrip_witness :
    String.mk ("64MB".data.takeWhile fun c => c.isDigit) ++ sizeExt "64MB" = "64MB" ∧
    parse_size "12x34y" = none :=
  ⟨(C8_roundtrip "64MB" 67108864).1 (by decide),
   (C8_roundtrip "12x34y" 0).2 (by decide)⟩

/-- Claim C9.  A mode token made only of decimal digits, whose value n
fits in 64 bits, and which is not the literal token "0", resolves through
the empty unit suffix (scale 1) to FixedSize(n). -/
theorem C9_digits_fixed_size (s : String) (n : Nat) (m : Matches) (name : String) (b : Bool)
    (hne : s.data ≠ []) (hdig : s.data.all (fun c => c.isDigit) = true)
    (hval : digitsVal s.data = n) (hlt : n < 2 ^ 64) (h0 : s ≠ "0")
    (hstr : m.opt_str name = some s) :
    (check_option m name b).1 = some (BufferType.Size n) := by
  have hall : ∀ c ∈ s.data, c.isDigit = true := fun c hc => List.all_eq_true.mp hdig c hc
  have hext : sizeExt s = "" := by
    unfold sizeExt
    rw [dropWhile_nil_of_all s.data hall]
  have hnum : sizeNum s = s := by
    unfold sizeNum
    apply String.ext
    cases hr : s.data.reverse with
    | nil =>
      exfalso
      exact hne (by simpa using congrArg List.reverse hr)
    | cons c t =>
      have hc : c ∈ s.data := by
        have hmem : c ∈ s.data.reverse := by rw [hr]; exact List.mem_cons_self c t
        exact List.mem_reverse.mp hmem
      have hca : c.isAlpha = false := digit_not_alpha (hall c hc)
      rw [List.dropWhile_cons, if_neg (by simp [hca]), ← hr, List.reverse_reverse]
  have hrec : sizeNum s ++ sizeExt s = s := by
    rw [hnum, hext]
    apply String.ext
    rw [String.data_append]
    simp
  have hfs : rustFromStrU64 (sizeNum s) = some n := by
    rw [hnum]
    unfold rustFromStrU64
    rw [if_neg hne, if_neg (by simp [hdig]), hval, if_pos hlt]
  have hps : parse_size s = some n := by
    simp only [parse_size]
    rw [if_neg (not_not_intro hrec), hfs, hext]
    simp [sizeUnit]
    exact hlt
  have hL : s ≠ "L" := by
    intro hLs
    rw [hLs] at hdig
    exact absurd hdig (by decide)
  simp only [check_option, hstr]
  split <;> simp_all

/-- Claim C9 witness: the all-digit token "00" resolves to FixedSize(0),
not Unbuffered. -/
theorem C9_digits_fixed_size_witness :
    (check_option { outputVals := ["00"] } "output" false).1 = some (BufferType.Size 0) ∧
    some (BufferType.Size 0) ≠ some BufferType.Unbuffered :=
  ⟨C9_digits_fixed_size "00" 0 { outputVals := ["00"] } "output" false
      (by decide) (by decide) (by decide) (by decide) (by decide) (by decide),
   by decide⟩

/-- Claim C4.  The token "0" resolves to Unbuffered for any stream; "L"
resolves to LineBuffered for the output and error streams; "L" for the
input stream is rejected by check_option, which returns the failure value
together with its diagnostic line, and the resolver turns that failure
into a Fatal outcome. -/
theorem C4_mode_tokens (m : Matches) (name : String) (b : Bool) :
    (m.opt_str name = some "0" → (check_option m name b).1 = some BufferType.Unbuffered) ∧
    ((name = "output" ∨ name = "error") → m.opt_str name = some "L" →
      (check_option m name b).1 = some BufferType.Line) ∧
    (m.opt_str "input" = some "L" →
      check_option m "input" b =
        (none, true, ["stdbuf: line buffering stdin is meaningless"])) ∧
    (∀ s : ProgramOptions,
      (parse_options ["-i", "L", "cmd"] s).1 = ParseResult.err ErrMsg.Fatal) := by
  refine ⟨?_, ?_, ?_, ?_⟩
  · intro h
    simp [check_option, h]
  · intro hname h
    rcases hname with hname | hname <;> subst hname <;> simp [check_option, h]
  · intro h
    simp [check_option, h]
  · intro s
    exact @parse_options_fatal_of_check ["-i", "L", "cmd"] { inputVals := ["L"], free := ["cmd"] }
      (by decide) (by decide) (by decide) (Or.inl (by decide)) s

/-- Claim C4 witness: concrete instances for each conjunct. -/
theorem C4_mode_tokens_witness :
    (check_option { errorVals := ["0"] } "error" false).1 = some BufferType.Unbuffered ∧
    (check_option { outputVals := ["L"] } "output" false).1 = some BufferType.Line ∧
    check_option { inputVals := ["L"] } "input" false =
      (none, true, ["stdbuf: line buffering stdin is meaningless"]) ∧
    (parse_options ["-i", "L", "cmd"] initialOptions).1 = ParseResult.err ErrMsg.Fatal :=
  ⟨(C4_mode_tokens { errorVals := ["0"] } "error" false).1 (by decide),
   (C4_mode_tokens { outputVals := ["L"] } "output" false).2.1 (Or.inl rfl) (by decide),
   (C4_mode_tokens { inputVals := ["L"] } "input" false).2.2.1 (by decide),
   (C4_mode_tokens { inputVals := ["L"] } "input" false).2.2.2 initialOptions⟩

/-- Claim C5.  Supplying just a command token (any token the grammar does
not treat as an option) and no mode option makes the resolver signal
Fatal with the buffering-mode-required diagnostic, and main ends in the
invalid-options outcome whose exit status is 125, launching nothing. -/
theorem C5_missing_mode_fatal (cmd : String) (h : isArg cmd = false) :
    parse_options [cmd] initialOptions =
      (ParseResult.err ErrMsg.Fatal, initialOptions,
        ["stdbuf: you must specify a buffering mode option"]) ∧
    stdbuf_main ["stdbuf", cmd] = MainOutcome.invalidOptions ∧
    exitCode MainOutcome.invalidOptions = some 125 := by
  have hg : getoptsFn [cmd] = GetoptsResult.ok { free := [cmd] } := by
    unfold getoptsFn getoptsLoop
    rw [h]
    simp [getoptsLoop, Matches.anyDuplicated]
  have hp : parse_options [cmd] initialOptions =
      (ParseResult.err ErrMsg.Fatal, initialOptions,
        ["stdbuf: you must specify a buffering mode option"]) := by
    unfold parse_options
    rw [hg]
    simp [Matches.opt_present, Matches.opt_str, check_option, initialOptions]
  refine ⟨hp, ?_, rfl⟩
  show mainLoopAux ["stdbuf", cmd] 2 1 initialOptions = MainOutcome.invalidOptions
  have hpre1 : ((["stdbuf", cmd] : List String).take 1).drop 1 = ([] : List String) := by simp
  have h1 : (parse_options (((["stdbuf", cmd] : List String).take 1).drop 1)
      initialOptions).1 = ParseResult.err ErrMsg.Retry := by
    rw [hpre1]; decide
  rw [mainLoopAux_retry 1 h1]
  have hX : (parse_options (((["stdbuf", cmd] : List String).take 1).drop 1)
      initialOptions).2.1 = initialOptions := by
    rw [hpre1]; decide
  rw [hX]
  have hpre2 : ((["stdbuf", cmd] : List String).take 2).drop 1 = [cmd] := by simp
  have h2 : (parse_options (((["stdbuf", cmd] : List String).take 2).drop 1)
      initialOptions).1 = ParseResult.err ErrMsg.Fatal := by
    rw [hpre2, hp]
  exact mainLoopAux_fatal 0 h2

/-- Claim C5 witness: the single real argument "mycmd". -/
theorem C5_missing_mode_fatal_witness :
    parse_options ["mycmd"] initialOptions =
      (ParseResult.err ErrMsg.Fatal, initialOptions,
        ["stdbuf: you must specify a buffering mode option"]) ∧
    stdbuf_main ["stdbuf", "mycmd"] = MainOutcome.invalidOptions ∧
    exitCode MainOutcome.invalidOptions = some 125 :=
  C5_missing_mode_fatal "mycmd" (by decide)

/-- Claim C6.  When the first real argument is --help (or --version) the
scan ends at that token with the help (or version) outcome and exit
status 0, whatever arguments follow, and no command is launched. -/
theorem C6_help_version_short_circuit (rest : List String) :
    stdbuf_main ("stdbuf" :: "--help" :: rest) = MainOutcome.helpShown ∧
    stdbuf_main ("stdbuf" :: "--version" :: rest) = MainOutcome.versionShown ∧
    exitCode MainOutcome.helpShown = some 0 ∧
    exitCode MainOutcome.versionShown = some 0 := by
  refine ⟨?_, ?_, rfl, rfl⟩
  · show mainLoopAux ("stdbuf" :: "--help" :: rest) (rest.length + 1 + 1) 1 initialOptions =
      MainOutcome.helpShown
    have hpre1 : ((("stdbuf" : String) :: "--help" :: rest).take 1).drop 1 =
        ([] : List String) := by simp
    have h1 : (parse_options (((("stdbuf" : String) :: "--help" :: rest).take 1).drop 1)
        initialOptions).1 = ParseResult.err ErrMsg.Retry := by
      rw [hpre1]; decide
    rw [mainLoopAux_retry (rest.length + 1) h1]
    have hX : (parse_options (((("stdbuf" : String) :: "--help" :: rest).take 1).drop 1)
        initialOptions).2.1 = initialOptions := by
      rw [hpre1]; decide
    rw [hX]
    have hpre2 : ((("stdbuf" : String) :: "--help" :: rest).take 2).drop 1 = ["--help"] := by
      simp
    have h2 : (parse_options (((("stdbuf" : String) :: "--help" :: rest).take 2).drop 1)
        initialOptions).1 = ParseResult.ok OkMsg.Help := by
      rw [hpre2]; decide
    exact mainLoopAux_help rest.length h2
  · show mainLoopAux ("stdbuf" :: "--version" :: rest) (rest.length + 1 + 1) 1 initialOptions =
      MainOutcome.versionShown
    have hpre1 : ((("stdbuf" : String) :: "--version" :: rest).take 1).drop 1 =
        ([] : List String) := by simp
    have h1 : (parse_options (((("stdbuf" : String) :: "--version" :: rest).take 1).drop 1)
        initialOptions).1 = ParseResult.err ErrMsg.Retry := by
      rw [hpre1]; decide
    rw [mainLoopAux_retry (rest.length + 1) h1]
    have hX : (parse_options (((("stdbuf" : String) :: "--version" :: rest).take 1).drop 1)
        initialOptions).2.1 = initialOptions := by
      rw [hpre1]; decide
    rw [hX]
    have hpre2 : ((("stdbuf" : String) :: "--version" :: rest).take 2).drop 1 =
        ["--version"] := by simp
    have h2 : (parse_options (((("stdbuf" : String) :: "--version" :: rest).take 2).drop 1)
        initialOptions).1 = ParseResult.ok OkMsg.Version := by
      rw [hpre2]; decide
    exact mainLoopAux_version rest.length h2

/-- Claim C2 counterexample.  On real arguments
["-o", "64MB", "cat", "file.txt"] the resolver first resolves on the
prefix of length 3 (lengths 0, 1 and 2 are Retryable), yet the launched
command is "cat", the token at real-argument index 2 — the last token of
the winning prefix — and not the token at index 3, which is "file.txt";
so the boundary is L - 1, not L as the claim states. -/
theorem C2_counterexample :
    (parse_options ([] : List String) initialOptions).1 = ParseResult.err ErrMsg.Retry ∧
    (parse_options ["-o"] initialOptions).1 = ParseResult.err ErrMsg.Retry ∧
    (parse_options ["-o", "64MB"] initialOptions).1 = ParseResult.err ErrMsg.Retry ∧
    (parse_options ["-o", "64MB", "cat"] initialOptions).1 = ParseResult.ok OkMsg.Buffering ∧
    stdbuf_main ["stdbuf", "-o", "64MB", "cat", "file.txt"] =
      MainOutcome.launch
        { stdin := BufferType.Default, stdout := BufferType.Size 67108864,
          stderr := BufferType.Default } "cat" ["file.txt"] ∧
    (["-o", "64MB", "cat", "file.txt"] : List String).getD 3 "" = "file.txt" ∧
    "cat" ≠ "file.txt" := by decide

/-- Claim C2 (amended).  If the resolver first resolves on the prefix
args.slice(1, i) — of length L = i - 1 — then main launches the token at
full-argv index i - 1 (real-argument index L - 1, the single positional
inside the winning prefix) with the remaining tokens as its arguments,
and the launched options are those resolved from the winning prefix. -/
theorem C2_boundary_amended (args : List String) (i : Nat)
    (h1 : 1 ≤ i) (h2 : i ≤ args.length)
    (hres : (parse_options ((args.take i).drop 1) initialOptions).1 =
      ParseResult.ok OkMsg.Buffering)
    (hprev : ∀ j, j < i → 1 ≤ j →
      (parse_options ((args.take j).drop 1) initialOptions).1 =
        ParseResult.err ErrMsg.Retry) :
    stdbuf_main args =
      MainOutcome.launch ((parse_options ((args.take i).drop 1) initialOptions).2.1)
        (args.getD (i - 1) "") (args.drop i) := by
  have h := mainLoop_reach args i h2 hres hprev (i - 1) 1 initialOptions (le_refl 1) h1 rfl
  have hlen : args.length + 1 - 1 = args.length := by omega
  rw [hlen] at h
  exact h

/-- Claim C2 witness: the example argument vector, first resolved at
i = 4 (prefix length 3), launching "cat" with ["file.txt"]. -/
theorem C2_boundary_amended_witness :
    stdbuf_main ["stdbuf", "-o", "64MB", "cat", "file.txt"] =
      MainOutcome.launch
        { stdin := BufferType.Default, stdout := BufferType.Size 67108864,
          stderr := BufferType.Default } "cat" ["file.txt"] := by
  have h := C2_boundary_amended ["stdbuf", "-o", "64MB", "cat", "file.txt"] 4
    (by decide) (by decide) (by decide) (by decide)
  exact h.trans (by decide)

/-- Claim C7 counterexample.  The prefix ["-o", "12x", "-x"] contains the
stream option -o with the invalid mode token "12x" (parse_size rejects
it), yet the resolver signals Retryable, not Fatal, because the
option-grammar parse fails first on the unknown flag -x. -/
theorem C7_counterexample :
    parse_size "12x" = none ∧
    (parse_options ["-o", "12x", "-x"] initialOptions).1 = ParseResult.err ErrMsg.Retry ∧
    ParseResult.err ErrMsg.Retry ≠ ParseResult.err ErrMsg.Fatal := by decide

/-- Claim C7 (amended).  A failing option-grammar parse always makes the
resolver signal Retryable with the state unchanged and nothing printed,
and the scan then moves to the next longer prefix; an invalid mode token
makes the resolver signal Fatal — and the scan stop at once with the
invalid-options outcome — provided the grammar parse of the prefix
succeeds and neither --help nor --version is matched. -/
theorem C7_retry_fatal_amended :
    (∀ (a : List String) (s : ProgramOptions) (e : GetoptsFail),
      getoptsFn a = GetoptsResult.err e →
      parse_options a s = (ParseResult.err ErrMsg.Retry, s, [])) ∧
    (∀ (a : List String) (s : ProgramOptions) (m : Matches),
      getoptsFn a = GetoptsResult.ok m →
      m.opt_present "help" = false → m.opt_present "version" = false →
      ((check_option m "input" false).1 = none ∨
        (check_option m "output" false).1 = none ∨
        (check_option m "error" false).1 = none) →
      (parse_options a s).1 = ParseResult.err ErrMsg.Fatal) ∧
    (∀ (args : List String) (rem i : Nat) (s : ProgramOptions),
      (parse_options ((args.take i).drop 1) s).1 = ParseResult.err ErrMsg.Retry →
      mainLoopAux args (rem + 1) i s =
        mainLoopAux args rem (i + 1) ((parse_options ((args.take i).drop 1) s).2.1)) ∧
    (∀ (args : List String) (rem i : Nat) (s : ProgramOptions),
      (parse_options ((args.take i).drop 1) s).1 = ParseResult.err ErrMsg.Fatal →
      mainLoopAux args (rem + 1) i s = MainOutcome.invalidOptions) := by
  refine ⟨?_, ?_, ?_, ?_⟩
  · intro a s e hg
    exact parse_options_getopts_err hg s
  · intro a s m hg hh hv hc
    exact parse_options_fatal_of_check hg hh hv hc s
  · intro args rem i s h
    exact mainLoopAux_retry rem h
  · intro args rem i s h
    exact mainLoopAux_fatal rem h

/-- Claim C7 witness: a truncated unknown flag gives Retryable; an
invalid mode with a clean grammar parse gives Fatal; one Retryable scan
step and one Fatal scan stop. -/
theorem C7_retry_fatal_witness :
    parse_options ["-x"] initialOptions = (ParseResult.err ErrMsg.Retry, initialOptions, []) ∧
    (parse_options ["-e", "L5", "c"] initialOptions).1 = ParseResult.err ErrMsg.Fatal ∧
    mainLoopAux ["stdbuf", "-o"] 1 2 initialOptions =
      mainLoopAux ["stdbuf", "-o"] 0 3
        ((parse_options (((["stdbuf", "-o"] : List String).take 2).drop 1)
          initialOptions).2.1) ∧
    mainLoopAux ["stdbuf", "-i", "L", "c"] 1 4 initialOptions = MainOutcome.invalidOptions :=
  ⟨C7_retry_fatal_amended.1 ["-x"] initialOptions
      (GetoptsFail.unrecognizedOption "x") (by decide),
   C7_retry_fatal_amended.2.1 ["-e", "L5", "c"] initialOptions
      { errorVals := ["L5"], free := ["c"] } (by decide) (by decide) (by decide)
      (Or.inr (Or.inr (by decide))),
   C7_retry_fatal_amended.2.2.1 ["stdbuf", "-o"] 0 2 initialOptions (by decide),
   C7_retry_fatal_amended.2.2.2 ["stdbuf", "-i", "L", "c"] 0 4 initialOptions (by decide)⟩

/-- Claim C10 counterexample.  The attempt on the prefix ["-o", "0"]
signals Retryable but does not leave the ProgramOptions unchanged: it has
already overwritten stdout with Unbuffered. -/
theorem C10_counterexample :
    (parse_options ["-o", "0"] initialOptions).1 = ParseResult.err ErrMsg.Retry ∧
    (parse_options ["-o", "0"] initialOptions).2.1 ≠ initialOptions := by decide

/-- Claim C10 (amended).  Every resolution attempt's outcome is a pure
function of the prefix alone — independent of the incoming
ProgramOptions state — a resolving attempt produces options independent
of that state, a Retryable attempt prints nothing, and the whole scan
(hence the options handed to the launcher) is independent of the state
left behind by earlier failed attempts. -/
theorem C10_state_effects :
    (∀ (a : List String) (s t : ProgramOptions),
      (parse_options a s).1 = (parse_options a t).1) ∧
    (∀ (a : List String) (s t : ProgramOptions),
      (parse_options a s).1 = ParseResult.ok OkMsg.Buffering →
      (parse_options a s).2.1 = (parse_options a t).2.1) ∧
    (∀ (a : List String) (s : ProgramOptions),
      (parse_options a s).1 = ParseResult.err ErrMsg.Retry →
      (parse_options a s).2.2 = []) ∧
    (∀ (args : List String) (rem i : Nat) (s t : ProgramOptions),
      mainLoopAux args rem i s = mainLoopAux args rem i t) := by
  refine ⟨?_, ?_, ?_, ?_⟩
  · intro a s t
    exact (parse_options_indep a s t).1
  · intro a s t h
    exact (parse_options_indep a s t).2.2 h
  · intro a s h
    exact parse_options_retry_msgs h
  · intro args rem i s t
    exact mainLoopAux_state_indep args rem i s t

/-- Claim C10 witness: a resolving prefix yields the same options from a
scrambled state as from the initial one, and a Retryable attempt prints
nothing. -/
theorem C10_state_effects_witness :
    (parse_options ["-o", "0", "c"]
        { stdin := BufferType.Line, stdout := BufferType.Line,
          stderr := BufferType.Line }).2.1 =
      (parse_options ["-o", "0", "c"] initialOptions).2.1 ∧
    (parse_options ["-o", "0"] initialOptions).2.2 = [] :=
  ⟨C10_state_effects.2.1 ["-o", "0", "c"]
      { stdin := BufferType.Line, stdout := BufferType.Line, stderr := BufferType.Line }
      initialOptions (by decide),
   C10_state_effects.2.2.1 ["-o", "0"] initialOptions (by decide)⟩
